import Mathlib

/-!
Shallow embedding of the Perdoo comic-archive pipeline
(`perdoo/__main__.py`, `perdoo/archives/__init__.py`, `perdoo/archives/cbr.py`,
`perdoo/services/comicvine.py`) together with theorems settling the frozen
claims about its specification.

Machine conventions used throughout:
* Python `date` values are modelled as `Int` day numbers; a `timedelta.days`
  value of `abs(a - b)` becomes `(a - b).natAbs`.
* Python `None` becomes `Option.none`; Python truthiness of strings and
  integers (empty string and `0` are falsy) is modelled explicitly where the
  source relies on it.
* In-place mutation of the pydantic metadata models becomes explicit state
  passing: each embedded function returns the updated record.
* Interactive console input (prompts, menus, confirmations) is modelled as a
  finite trace of events consumed in order; network calls of the external
  Comicvine session are modelled as function-valued fields returning
  `Option` (`none` models a raised `ServiceError`).
-/

namespace Perdoo

/-- Python `str.zfill`: left-pad with zeros to the given width, keeping a
leading sign character in front of the padding. -/
def zfill (width : Nat) (s : String) : String :=
  if s.length ≥ width then s
  else
    let pad := String.mk (List.replicate (width - s.length) '0')
    match s.data with
    | [] => pad
    | c :: rest =>
      if c = '+' ∨ c = '-' then String.mk (c :: (pad.data ++ rest))
      else pad ++ s

/-- Index of the last occurrence of a character in a list, if any
(Python `str.rfind`). -/
def rfindIdx (cs : List Char) (c : Char) : Option Nat :=
  ((cs.enum.filter (fun p => p.2 = c)).map (fun p => p.1)).getLast?

/-- Python `pathlib.PurePath.suffix` applied to a file name: the substring
from the last dot, provided that dot is neither the first nor the last
character; otherwise the empty string. -/
def pathSuffix (name : String) : String :=
  match rfindIdx name.data '.' with
  | some i => if 0 < i ∧ i < name.length - 1 then String.mk (name.data.drop i) else ""
  | none => ""

/-- Python `str.strip()`: remove leading and trailing whitespace. -/
def pyStrip (s : String) : String :=
  String.mk (((s.data.dropWhile Char.isWhitespace).reverse.dropWhile Char.isWhitespace).reverse)

/-- Splitting on maximal runs of delimiter characters, keeping empty fields at
the ends, as Python `re.split("[...]+", s)` does.  Recursion is bounded by an
explicit fuel; callers pass `cs.length + 1`, which is always sufficient since
every step consumes at least one character. -/
def splitRunsAux (p : Char → Bool) : Nat → List Char → List String
  | 0, _ => []
  | n + 1, cs =>
    let first := cs.takeWhile (fun c => !p c)
    let rest := cs.dropWhile (fun c => !p c)
    match rest with
    | [] => [String.mk first]
    | _ :: _ => String.mk first :: splitRunsAux p n (rest.dropWhile p)

/-- Python `re.split("[~\r\n,]+", s)`: fields between maximal runs of the
role-delimiter characters. -/
def splitRoles (s : String) : List String :=
  splitRunsAux (fun c => c = '~' ∨ c = '\r' ∨ c = '\n' ∨ c = ',') (s.data.length + 1) s.data

/-- Python `set(lst)` followed by `.add(x)` followed by `list(...)`, for a type
with decidable equality: a duplicate-free list with the same members, the new
element appended when absent.  (The metadata `Resource` model compares by
field value, so set membership is value equality on the
(source, value) pair.) -/
def pysetInsert {α : Type} [DecidableEq α] (lst : List α) (x : α) : List α :=
  let d := lst.dedup
  if x ∈ d then d else d ++ [x]

/-! ## Archive dispatch (`perdoo/archives/__init__.py`) -/

/-- The four archive variants returned by `get_archive`. -/
inductive ArchiveKind
  | CBZ
  | CBR
  | CBT
  | CB7
deriving DecidableEq, Repr

/-- In `get_archive(path)` the four signature predicates `is_zipfile(path)`,
`is_rarfile(path)`, `is_tarfile(path)` and `is_7zfile(path)` on the file
content are abstracted as boolean inputs; `py7zrLoaded` models whether the
optional `py7zr` import succeeded.  The fourth branch of the source reads `if py7zr_loaded and is_7zfile:` -- the
function object `is_7zfile` itself, never applied to `path` -- and a function
object is always truthy, so the branch condition reduces to `py7zr_loaded`
and the `is7z` content predicate is never consulted. -/
def is7zfileObjectTruthy (_is7z : Bool) : Bool :=
  true

/-- `get_archive(path)` from `perdoo/archives/__init__.py`, with the content
signature tests abstracted as booleans and the unapplied `is_7zfile` function
object modelled by `is7zfileObjectTruthy`. -/
def get_archive (isZip isRar isTar is7z py7zrLoaded : Bool) : Except String ArchiveKind :=
  if isZip then .ok .CBZ
  else if isRar then .ok .CBR
  else if isTar then .ok .CBT
  else if py7zrLoaded && is7zfileObjectTruthy is7z then .ok .CB7
  else .error "unsupported archive"

/-! ## Provenance stamp and freshness gate (`perdoo/__main__.py`, `start`) -/

/-- Modelled from the spec: the provenance tool signature
(`perdoo.models.metadata.Tool`, not under `src/`): tool name and version,
with the default-constructed `Tool()` carrying the default field values. -/
structure Tool where
  name : String
  version : String
deriving DecidableEq, Repr

/-- The default-constructed `Tool()` the freshness gate compares against. -/
def defaultTool : Tool := ⟨"Perdoo", "0.1.0"⟩

/-- Modelled from the spec: the provenance stamp
(`perdoo.models.metadata.Meta`): tool identity plus last-processed date. -/
structure Meta where
  tool : Tool
  date_ : Int
deriving DecidableEq, Repr

/-- The freshness gate of `start` (`__main__.py` lines 215-218):
`difference = abs(date.today() - metadata.meta.date_)` and the archive is
skipped when `metadata.meta.tool == Tool() and difference.days < 28`, all of
it only evaluated `if not force`. -/
def shouldSkip (force : Bool) (meta : Meta) (today : Int) : Bool :=
  !force && decide (meta.tool = defaultTool) && decide ((today - meta.date_).natAbs < 28)

/-! ## Metadata data model

The three schema classes live in `perdoo.models` (not under `src/`); the
structures below are modelled from the spec and carry exactly the fields the
embedded source functions read or write. -/

/-- Modelled from the spec: `perdoo.models.metadata.Source`, the source-system
tag of an external identifier. -/
inductive Source
  | comicvine
  | marvel
  | metron
  | leagueOfComicGeeks
deriving DecidableEq, Repr

/-- Modelled from the spec: `perdoo.models.metadata.Resource`, a
(source system, opaque value) identifier pair compared by value. -/
structure Resource where
  source : Source
  value : Int
deriving DecidableEq, Repr

/-- Modelled from the spec: `perdoo.models.metadata.TitledResource`. -/
structure TitledResource where
  title : String
  resources : List Resource
deriving DecidableEq, Repr

/-- Modelled from the spec: `perdoo.models.metadata.Credit`. -/
structure CreditMD where
  creator : TitledResource
  roles : List TitledResource
deriving DecidableEq, Repr

/-- Modelled from the spec: `perdoo.models.metadata.StoryArc`. -/
structure StoryArcMD where
  title : String
  resources : List Resource
deriving DecidableEq, Repr

/-- Modelled from the spec: the issue format kind
(`perdoo.models.metadata.Format`); members taken from the kinds the spec
lists and the members `__main__.py` consults. -/
inductive Format
  | annual
  | comic
  | digitalChapter
  | graphicNovel
  | hardcover
  | tradePaperback
deriving DecidableEq, Repr

/-- Modelled from the spec: the publisher record inside the canonical
schema. -/
structure PublisherMD where
  title : String
  resources : List Resource
deriving DecidableEq, Repr

/-- Modelled from the spec: the series record inside the canonical schema.
`start_year` is an integer year (the Comicvine volume always carries one in
this model). -/
structure SeriesMD where
  publisher : PublisherMD
  title : String
  volume : Int
  start_year : Int
  resources : List Resource
deriving DecidableEq, Repr

/-- Modelled from the spec: the issue record inside the canonical schema,
with the fields the embedded functions touch.  `number` is a string, the
empty string standing for an absent number (Python falsy). -/
structure IssueMD where
  series : SeriesMD
  number : String
  format : Format
  title : Option String
  summary : Option String
  cover_date : Option Int
  store_date : Option Int
  characters : List TitledResource
  credits : List CreditMD
  locations : List TitledResource
  story_arcs : List StoryArcMD
  teams : List TitledResource
  resources : List Resource
deriving DecidableEq, Repr

/-- Modelled from the spec: the canonical schema `perdoo.models.Metadata`
(page list omitted; no embedded function reads it). -/
structure Metadata where
  issue : IssueMD
  meta : Meta
deriving DecidableEq, Repr

/-- Modelled from the spec: `perdoo.models.metron_info.InformationSource`. -/
inductive InformationSource
  | comicVine
  | metron
  | marvel
  | leagueOfComicGeeks
deriving DecidableEq, Repr

/-- Modelled from the spec: `perdoo.models.metron_info.Source`, the top-level
provenance marker of a MetronInfo document. -/
structure SourceMI where
  source : InformationSource
  value : Int
deriving DecidableEq, Repr

/-- Modelled from the spec: `perdoo.models.metron_info.Resource`, an
(id, display value) pair. -/
structure ResourceMI where
  id : Int
  value : String
deriving DecidableEq, Repr

/-- Modelled from the spec: `perdoo.models.metron_info.Arc`. -/
structure ArcMI where
  id : Int
  name : String
deriving DecidableEq, Repr

/-- Modelled from the spec: `perdoo.models.metron_info.Role`, the enumerated
creator role; a handful of known keywords plus the generic `other`. -/
inductive RoleMI
  | writer
  | penciller
  | inker
  | colorist
  | letterer
  | editor
  | coverArtist
  | other
deriving DecidableEq, Repr

/-- Modelled from the spec: `Role.load(value)` maps a role keyword to the
enumerated role and raises `ValueError` (here `none`) on anything else. -/
def RoleMI.load (s : String) : Option RoleMI :=
  if s = "Writer" then some .writer
  else if s = "Penciller" then some .penciller
  else if s = "Inker" then some .inker
  else if s = "Colorist" then some .colorist
  else if s = "Letterer" then some .letterer
  else if s = "Editor" then some .editor
  else if s = "Cover Artist" then some .coverArtist
  else none

/-- Modelled from the spec: `perdoo.models.metron_info.RoleResource`. -/
structure RoleResourceMI where
  value : RoleMI
deriving DecidableEq, Repr

/-- Modelled from the spec: `perdoo.models.metron_info.Credit`. -/
structure CreditMI where
  creator : ResourceMI
  roles : List RoleResourceMI
deriving DecidableEq, Repr

/-- The Python value stored in `metron_info.cover_date`: either a bare date
or, as the source assignment with its trailing comma builds, a one-element
tuple holding a date. -/
inductive CoverDateVal
  | bare (d : Int)
  | tup (d : Int)
deriving DecidableEq, Repr

/-- Modelled from the spec: the publisher record of MetronInfo. -/
structure PublisherMI where
  id : Option Int
  value : Option String
deriving DecidableEq, Repr

/-- Modelled from the spec: the series record of MetronInfo. -/
structure SeriesMI where
  id : Option Int
  name : Option String
deriving DecidableEq, Repr

/-- Modelled from the spec: the interchange schema `perdoo.models.MetronInfo`
with the fields the embedded functions touch. -/
structure MetronInfo where
  id : Option SourceMI
  publisher : PublisherMI
  series : SeriesMI
  arcs : List ArcMI
  characters : List ResourceMI
  cover_date : Option CoverDateVal
  credits : List CreditMI
  locations : List ResourceMI
  number : Option String
  store_date : Option Int
  summary : Option String
  teams : List ResourceMI
  collection_title : Option String
  url : Option String
deriving DecidableEq, Repr

/-- Modelled from the spec: the interchange schema `perdoo.models.ComicInfo`
with the fields the embedded functions touch; `credits` models the Python
dict from creator name to role strings as an association list. -/
structure ComicInfo where
  publisher : Option String
  series : Option String
  character_list : List String
  credits : List (String × List String)
  cover_date : Option Int
  location_list : List String
  number : Option String
  story_arc_list : List String
  summary : Option String
  team_list : List String
  title : Option String
  web : Option String
deriving DecidableEq, Repr

/-! ## Filename generation (`__main__.py`, `generate_filename`) -/

/-- The `format_str` lookup table of `generate_filename`
(`__main__.py` lines 143-149): `.get(metadata.issue.format, "")`. -/
def format_str : Format → String
  | .annual => "_Annual"
  | .digitalChapter => "_Chapter"
  | .graphicNovel => "_GN"
  | .hardcover => "_HC"
  | .tradePaperback => "_TP"
  | .comic => ""

/-- The `number_str` expression of `generate_filename`
(`__main__.py` lines 138-142): `_#` plus the number zero-filled to 3 digits
for `Format.COMIC` and 2 digits otherwise, or the empty string when the
number is falsy. -/
def number_str (number : String) (format : Format) : String :=
  if number ≠ "" then
    "_#" ++ zfill (if format = .comic then 3 else 2) number
  else ""

/-- The `series_filename` expression of `generate_filename`
(`__main__.py` lines 132-136). -/
def series_filename (title : String) (volume : Int) : String :=
  if volume > 1 then title ++ " v" ++ toString volume else title

/-- The `issue_filename` branching of `generate_filename`
(`__main__.py` lines 150-155); `sanitize` lives in `perdoo.utils` (not under
`src/`) and is abstracted as a function argument. -/
def issue_filename (sanitize : String → String) (seriesFilename : String)
    (number : String) (format : Format) : String :=
  let ns := number_str number format
  let fs := format_str format
  if format = .annual ∨ format = .digitalChapter then
    sanitize seriesFilename ++ fs ++ ns
  else if format = .graphicNovel ∨ format = .hardcover ∨ format = .tradePaperback then
    sanitize seriesFilename ++ ns ++ fs
  else
    sanitize seriesFilename ++ ns

/-- `generate_filename(root, extension, metadata)` (`__main__.py` lines
130-162), returning the path as its list of segments below `root`. -/
def generate_filename (sanitize : String → String) (extension : String)
    (metadata : Metadata) : List String :=
  let publisherFilename := metadata.issue.series.publisher.title
  let seriesFilename :=
    series_filename metadata.issue.series.title metadata.issue.series.volume
  let issueFilename :=
    issue_filename sanitize seriesFilename metadata.issue.number metadata.issue.format
  [sanitize publisherFilename, sanitize seriesFilename, issueFilename ++ "." ++ extension]

/-! ## Page renaming (`__main__.py`, `rename_images`) -/

/-- `rename_images(folder, filename)` (`__main__.py` lines 165-172), given
the sorted image names `list_files` would return (`list_files` lives in
`perdoo.utils`, not under `src/`).  Returns the list of (old name, new name)
rename operations performed.  Note the source guard compares against
`f"{filename}_{index}{suffix}"` (underscore) while the actual rename target
is `f"{filename}-{index}{suffix}"` (hyphen). -/
def rename_images (filename : String) (images : List String) : List (String × String) :=
  let padCount := (toString images.length).length
  images.enum.filterMap fun p =>
    let index := p.1
    let img := p.2
    let newFilename := filename ++ "_" ++ zfill padCount (toString index) ++ pathSuffix img
    if img ≠ newFilename then
      some (img, filename ++ "-" ++ zfill padCount (toString index) ++ pathSuffix img)
    else none

/-! ## Orchestrator loop (`__main__.py`, `start`) -/

/-- One archive as the `start` loop sees it: its provenance stamp after
reconciliation plus the outcomes of its two fallible archive operations. -/
structure FileModel where
  name : String
  meta : Meta
  extract_ok : Bool
  rearchive_ok : Bool
deriving DecidableEq, Repr

/-- What the `start` loop does with one archive. -/
inductive Outcome
  | skippedFresh
  | abortedRun
  | rearchiveFailed
  | processed
  | notReached
deriving DecidableEq, Repr

/-- The per-archive loop of `start` (`__main__.py` lines 211-260): the
freshness gate `continue`s, a false `extract_files` hits `return` (ending the
whole run, so later files are never reached), a falsy `archive_files` result
`continue`s after a critical log, and otherwise the archive is fully
processed. -/
def start_loop (force : Bool) (today : Int) : List FileModel → List (String × Outcome)
  | [] => []
  | f :: rest =>
    if shouldSkip force f.meta today then
      (f.name, .skippedFresh) :: start_loop force today rest
    else if !f.extract_ok then
      (f.name, .abortedRun) :: rest.map (fun g => (g.name, .notReached))
    else if !f.rearchive_ok then
      (f.name, .rearchiveFailed) :: start_loop force today rest
    else
      (f.name, .processed) :: start_loop force today rest

/-! ## Metadata reconciliation (`__main__.py`, `read_archive`) -/

/-- The pairwise conversion functions of `perdoo.utils` (not under `src/`),
abstracted as opaque function arguments of the reconciliation step. -/
structure Converters where
  metron_to_metadata : MetronInfo → Metadata
  comic_to_metadata : ComicInfo → Metadata
  metadata_to_metron : Metadata → MetronInfo
  metadata_to_comic : Metadata → ComicInfo

/-- The derivation stage of `read_archive` (`__main__.py` lines 86-97).  The
three `Option` inputs are the parse outcomes of the three metadata entries
(`none` when the entry is missing or failed schema validation, exactly the
state the preceding try/except blocks leave behind); `createMeta` is the
result `create_metadata(archive)` would synthesize from the archive.  A
pydantic model instance is always truthy, so `if not metadata:` tests
exactly for `None`. -/
def read_archive_reconcile (c : Converters) (createMeta : Metadata)
    (mo : Option Metadata) (mio : Option MetronInfo) (cio : Option ComicInfo) :
    Metadata × MetronInfo × ComicInfo :=
  let metadata :=
    match mo with
    | some m => m
    | none =>
      match mio with
      | some mi => c.metron_to_metadata mi
      | none =>
        match cio with
        | some ci => c.comic_to_metadata ci
        | none => createMeta
  let metron_info :=
    match mio with
    | some mi => mi
    | none => c.metadata_to_metron metadata
  let comic_info :=
    match cio with
    | some ci => ci
    | none => c.metadata_to_comic metadata
  (metadata, metron_info, comic_info)

/-! ## Console trace (`perdoo.console`, an external collaborator)

The interactive console is consumed as a capability; its answers are
modelled as a finite trace of events consumed in order.  A missing or
mismatched event yields the neutral answer (empty text, the fallback menu
choice, "no" on a confirmation, the offered default date). -/

/-- One operator answer. -/
inductive Ev
  | text (s : String)
  | choice (n : Nat)
  | confirm (b : Bool)
  | dateAns (d : Int)
deriving DecidableEq, Repr

/-- `Prompt.ask`: consume a free-text answer. -/
def takeText : List Ev → String × List Ev
  | .text s :: r => (s, r)
  | _ :: r => ("", r)
  | [] => ("", [])

/-- `create_menu(options, ...)`: consume a menu answer; the console contract
returns an index between `0` (the fallback option) and the number of
options, so the answer is clamped to that range. -/
def takeChoice (optCount : Nat) : List Ev → Nat × List Ev
  | .choice n :: r => (min n optCount, r)
  | _ :: r => (0, r)
  | [] => (0, [])

/-- `Confirm.ask`: consume a yes/no answer. -/
def takeConfirm : List Ev → Bool × List Ev
  | .confirm b :: r => (b, r)
  | _ :: r => (false, r)
  | [] => (false, [])

/-- `DatePrompt.ask(..., default=d)`: consume a date answer, with the offered
default when the operator just accepts it. -/
def takeDate (default : Int) : List Ev → Int × List Ev
  | .dateAns d :: r => (d, r)
  | _ :: r => (default, r)
  | [] => (default, [])

/-! ## Comicvine service (`perdoo/services/comicvine.py`)

The `simyan` client schemas and session are external collaborators: the
schemas are modelled with the fields the source reads, and the session is a
record of functions in which `none` models a raised `ServiceError`. -/

/-- `simyan.schemas` generic entry with an id and a name (characters,
locations, teams, story arcs). -/
structure CVNamed where
  id : Int
  name : String
deriving DecidableEq, Repr

/-- `simyan` creator entry: id, name and the raw roles string. -/
structure CVCreator where
  id : Int
  name : String
  roles : String
deriving DecidableEq, Repr

/-- `simyan.schemas.publisher.Publisher` (the fields the source reads). -/
structure CVPublisher where
  id : Int
  name : String
deriving DecidableEq, Repr

/-- `simyan.schemas.volume.Volume` (the fields the source reads). -/
structure CVVolume where
  id : Int
  name : String
  start_year : Int
  publisher : CVNamed
deriving DecidableEq, Repr

/-- `simyan.schemas.issue.Issue` (the fields the source reads).  `name` and
the dates are nullable in the client schema. -/
structure CVIssue where
  id : Int
  name : Option String
  number : String
  cover_date : Option Int
  store_date : Option Int
  summary : Option String
  site_url : String
  characters : List CVNamed
  creators : List CVCreator
  locations : List CVNamed
  story_arcs : List CVNamed
  teams : List CVNamed
deriving DecidableEq, Repr

/-- The `simyan` session: each operation either answers or raises
`ServiceError` (`none`).  The list operations take the search filter the
source builds (`title` for publishers and volumes, an optional issue number
for issues). -/
structure Session where
  get_publisher : Int → Option CVPublisher
  list_publishers : String → Option (List CVPublisher)
  get_volume : Int → Option CVVolume
  list_volumes : String → Option (List CVVolume)
  get_issue : Int → Option CVIssue
  list_issues : Int → Option String → Option (List CVIssue)

/-- Python truthiness of an optional integer: `None` and `0` are falsy. -/
def truthyI : Option Int → Bool
  | some v => v ≠ 0
  | none => false

/-- Python truthiness of an optional string: `None` and `""` are falsy. -/
def truthyS : Option String → Bool
  | some s => s ≠ ""
  | none => false

/-- Python `a or b` on optional integers: keep `a` when truthy, else `b`. -/
def orElseI (a b : Option Int) : Option Int :=
  if truthyI a then a else b

/-- `add_publisher_to_metadata(publisher, metadata)`
(`comicvine.py` lines 28-34): set-union the Comicvine identifier into the
publisher resources and overwrite the publisher title. -/
def add_publisher_to_metadata (publisher : CVPublisher) (metadata : Metadata) : Metadata :=
  let resources :=
    pysetInsert metadata.issue.series.publisher.resources ⟨.comicvine, publisher.id⟩
  { metadata with issue.series.publisher := ⟨publisher.name, resources⟩ }

/-- `add_publisher_to_metron_info(publisher, metron_info)`
(`comicvine.py` lines 37-40). -/
def add_publisher_to_metron_info (publisher : CVPublisher) (mi : MetronInfo) : MetronInfo :=
  let mi :=
    if mi.id.isNone ∨ (mi.id.map (fun s => s.source)) = some .comicVine then
      { mi with publisher.id := some publisher.id }
    else mi
  { mi with publisher.value := some publisher.name }

/-- `add_publisher_to_comic_info(publisher, comic_info)`
(`comicvine.py` lines 43-44). -/
def add_publisher_to_comic_info (publisher : CVPublisher) (ci : ComicInfo) : ComicInfo :=
  { ci with publisher := some publisher.name }

/-- `add_series_to_metadata(series, metadata)` (`comicvine.py` lines 47-54). -/
def add_series_to_metadata (series : CVVolume) (metadata : Metadata) : Metadata :=
  let resources := pysetInsert metadata.issue.series.resources ⟨.comicvine, series.id⟩
  { metadata with
      issue.series.resources := resources
      issue.series.start_year := series.start_year
      issue.series.title := series.name }

/-- `add_series_to_metron_info(series, metron_info)`
(`comicvine.py` lines 57-60). -/
def add_series_to_metron_info (series : CVVolume) (mi : MetronInfo) : MetronInfo :=
  let mi :=
    if mi.id.isNone ∨ (mi.id.map (fun s => s.source)) = some .comicVine then
      { mi with series.id := some series.id }
    else mi
  { mi with series.name := some series.name }

/-- `add_series_to_comic_info(series, comic_info)`
(`comicvine.py` lines 63-64). -/
def add_series_to_comic_info (series : CVVolume) (ci : ComicInfo) : ComicInfo :=
  { ci with series := some series.name }

/-- The roles list of one creator as `add_issue_to_metadata` builds it:
split the raw roles string on runs of `~`, carriage return, newline or
comma, strip each fragment, and wrap it as a `TitledResource`. -/
def rolesAsTitled (roles : String) : List TitledResource :=
  (splitRoles roles).map (fun r => ⟨pyStrip r, []⟩)

/-- `add_issue_to_metadata(issue, metadata)` (`comicvine.py` lines 67-102). -/
def add_issue_to_metadata (issue : CVIssue) (metadata : Metadata) : Metadata :=
  let resources := pysetInsert metadata.issue.resources ⟨.comicvine, issue.id⟩
  { metadata with
      issue.resources := resources
      issue.characters :=
        issue.characters.map (fun x => ⟨x.name, [⟨.comicvine, x.id⟩]⟩)
      issue.cover_date := issue.cover_date
      issue.credits :=
        issue.creators.map (fun x =>
          ⟨⟨x.name, [⟨.comicvine, x.id⟩]⟩, rolesAsTitled x.roles⟩)
      issue.locations :=
        issue.locations.map (fun x => ⟨x.name, [⟨.comicvine, x.id⟩]⟩)
      issue.number := issue.number
      issue.store_date := issue.store_date
      issue.story_arcs :=
        issue.story_arcs.map (fun x => ⟨x.name, [⟨.comicvine, x.id⟩]⟩)
      issue.summary := issue.summary
      issue.teams :=
        issue.teams.map (fun x => ⟨x.name, [⟨.comicvine, x.id⟩]⟩)
      issue.title := issue.name }

/-- The roles list of one creator as `add_issue_to_metron_info` builds it:
each stripped fragment through `Role.load`, falling back to `Role.OTHER` on
`ValueError`. -/
def rolesAsMetron (roles : String) : List RoleResourceMI :=
  (splitRoles roles).map (fun r =>
    match RoleMI.load (pyStrip r) with
    | some ro => ⟨ro⟩
    | none => ⟨.other⟩)

/-- `add_issue_to_metron_info(issue, metron_info)`
(`comicvine.py` lines 105-131).  The `cover_date` assignment in the source is
a parenthesized expression ending in a comma, so it stores a one-element
tuple (`CoverDateVal.tup`); a missing Comicvine cover date is replaced by the
`DatePrompt` answer, whose offered default is `date.today()`.  The
`store_date` assignment has no trailing comma and stores the bare value. -/
def add_issue_to_metron_info (issue : CVIssue) (mi : MetronInfo) (today : Int)
    (trace : List Ev) : MetronInfo × List Ev :=
  let cd : Int × List Ev :=
    match issue.cover_date with
    | some d => (d, trace)
    | none => takeDate today trace
  let coverDate := cd.1
  let trace := cd.2
  let mi : MetronInfo :=
    { mi with
        arcs := issue.story_arcs.map (fun x => ⟨x.id, x.name⟩)
        characters := issue.characters.map (fun x => ⟨x.id, x.name⟩)
        cover_date := some (.tup coverDate)
        credits := issue.creators.map (fun x => ⟨⟨x.id, x.name⟩, rolesAsMetron x.roles⟩) }
  let mi :=
    if mi.id.isNone ∨ (mi.id.map (fun s => s.source)) = some .comicVine then
      { mi with id := some ⟨.comicVine, issue.id⟩ }
    else mi
  ({ mi with
      locations := issue.locations.map (fun x => ⟨x.id, x.name⟩)
      number := some issue.number
      store_date := issue.store_date
      summary := issue.summary
      teams := issue.teams.map (fun x => ⟨x.id, x.name⟩)
      collection_title := issue.name
      url := some issue.site_url }, trace)

/-- Python dict insertion with overwrite, used to model the credits dict
comprehension of `add_issue_to_comic_info`. -/
def dictInsert {α : Type} (m : List (String × α)) (k : String) (v : α) :
    List (String × α) :=
  if m.any (fun p => p.1 = k) then
    m.map (fun p => if p.1 = k then (k, v) else p)
  else m ++ [(k, v)]

/-- `add_issue_to_comic_info(issue, comic_info)`
(`comicvine.py` lines 134-146). -/
def add_issue_to_comic_info (issue : CVIssue) (ci : ComicInfo) : ComicInfo :=
  { ci with
      character_list := issue.characters.map (fun x => x.name)
      credits :=
        issue.creators.foldl
          (fun m x => dictInsert m x.name ((splitRoles x.roles).map pyStrip)) []
      cover_date := issue.cover_date
      location_list := issue.locations.map (fun x => x.name)
      number := some issue.number
      story_arc_list := issue.story_arcs.map (fun x => x.name)
      summary := issue.summary
      team_list := issue.teams.map (fun x => x.name)
      title := issue.name
      web := some issue.site_url }

/-- The three metadata objects a service `fetch` mutates in place. -/
structure Tri where
  metadata : Metadata
  metron_info : MetronInfo
  comic_info : ComicInfo
deriving DecidableEq, Repr

/-- `Comicvine._search_publishers` (`comicvine.py` lines 154-174).  The
operator-driven retry loop recurses with `title=None`; the recursion is
bounded by an explicit fuel, and callers pass `trace.length + 1`, which is
always sufficient because each retry consumes the "Try Again" confirmation
from the finite console trace. -/
def search_publishers (session : Session) :
    Nat → Option String → List Ev → Option Int × List Ev
  | 0, _, trace => (none, trace)
  | fuel + 1, title, trace =>
    let t : String × List Ev :=
      match title with
      | some s => if s ≠ "" then (s, trace) else takeText trace
      | none => takeText trace
    match session.list_publishers t.1 with
    | none => (none, t.2)
    | some pubs =>
      let options := pubs.mergeSort (fun a b => decide (a.name ≤ b.name))
      let c := takeChoice options.length t.2
      if c.1 ≠ 0 then
        ((options[c.1 - 1]?).map (fun p => p.id), c.2)
      else
        let cf := takeConfirm c.2
        if cf.1 then search_publishers session fuel none cf.2
        else (none, cf.2)

/-- `Comicvine._get_publisher_id` (`comicvine.py` lines 176-191): a stored
Comicvine identifier in the canonical publisher resources, else the
MetronInfo publisher id when the MetronInfo provenance marker names
Comicvine, else interactive search; Python `or` treats `0` as missing. -/
def get_publisher_id (session : Session) (m : Metadata) (mi : MetronInfo)
    (trace : List Ev) : Option Int × List Ev :=
  let stored : Option Int :=
    (m.issue.series.publisher.resources.find?
      (fun r => decide (r.source = Source.comicvine))).map (fun r => r.value)
  let fromMetron : Option Int :=
    match mi.id with
    | some sid => if sid.source = .comicVine then mi.publisher.id else none
    | none => none
  let pid := orElseI stored fromMetron
  if truthyI pid then (pid, trace)
  else
    search_publishers session (trace.length + 1)
      (some m.issue.series.publisher.title) trace

/-- `Comicvine.fetch_publisher` (`comicvine.py` lines 193-207): resolve the
publisher id, fetch the publisher, and merge it into all three schemas; a
`ServiceError` (modelled by `none`) leaves the state untouched. -/
def fetch_publisher (session : Session) (st : Tri) (trace : List Ev) :
    Option CVPublisher × Tri × List Ev :=
  let r := get_publisher_id session st.metadata st.metron_info trace
  match r.1 with
  | none => (none, st, r.2)
  | some pid =>
    if pid = 0 then (none, st, r.2)
    else
      match session.get_publisher pid with
      | none => (none, st, r.2)
      | some pub =>
        (some pub,
         ⟨add_publisher_to_metadata pub st.metadata,
          add_publisher_to_metron_info pub st.metron_info,
          add_publisher_to_comic_info pub st.comic_info⟩, r.2)

/-- `Comicvine._search_series` (`comicvine.py` lines 209-238): like the
publisher search, scoped to the resolved publisher and sorted by
(name, start year). -/
def search_series (session : Session) (publisher_id : Int) :
    Nat → Option String → List Ev → Option Int × List Ev
  | 0, _, trace => (none, trace)
  | fuel + 1, title, trace =>
    let t : String × List Ev :=
      match title with
      | some s => if s ≠ "" then (s, trace) else takeText trace
      | none => takeText trace
    match session.list_volumes t.1 with
    | none => (none, t.2)
    | some vols =>
      let filtered := vols.filter (fun x => decide (x.publisher.id = publisher_id))
      let options := filtered.mergeSort (fun a b =>
        decide (a.name < b.name) ||
          (decide (a.name = b.name) && decide (a.start_year ≤ b.start_year)))
      let c := takeChoice options.length t.2
      if c.1 ≠ 0 then
        ((options[c.1 - 1]?).map (fun v => v.id), c.2)
      else
        let cf := takeConfirm c.2
        if cf.1 then search_series session publisher_id fuel none cf.2
        else (none, cf.2)

/-- `Comicvine._get_series_id` (`comicvine.py` lines 240-252). -/
def get_series_id (session : Session) (publisher_id : Int) (m : Metadata)
    (mi : MetronInfo) (trace : List Ev) : Option Int × List Ev :=
  let stored : Option Int :=
    (m.issue.series.resources.find?
      (fun r => decide (r.source = Source.comicvine))).map (fun r => r.value)
  let fromMetron : Option Int :=
    match mi.id with
    | some sid => if sid.source = .comicVine then mi.series.id else none
    | none => none
  let sid := orElseI stored fromMetron
  if truthyI sid then (sid, trace)
  else
    search_series session publisher_id (trace.length + 1)
      (some m.issue.series.title) trace

/-- `Comicvine.fetch_series` (`comicvine.py` lines 254-274). -/
def fetch_series (session : Session) (st : Tri) (trace : List Ev)
    (publisher_id : Int) : Option CVVolume × Tri × List Ev :=
  let r := get_series_id session publisher_id st.metadata st.metron_info trace
  match r.1 with
  | none => (none, st, r.2)
  | some sid =>
    if sid = 0 then (none, st, r.2)
    else
      match session.get_volume sid with
      | none => (none, st, r.2)
      | some ser =>
        (some ser,
         ⟨add_series_to_metadata ser st.metadata,
          add_series_to_metron_info ser st.metron_info,
          add_series_to_comic_info ser st.comic_info⟩, r.2)

/-- `Comicvine._search_issues` (`comicvine.py` lines 276-305): search with
the known issue number first and, only when the operator picks "None of the
Above" while a number was set, retry once without the number; the recursion
is bounded by fuel 2 since the retry clears the number.  The sort key of the
source is `(x.number, x.name)`; a missing name is compared as the empty
string here. -/
def search_issues (session : Session) (series_id : Int) :
    Nat → Option String → List Ev → Option Int × List Ev
  | 0, _, trace => (none, trace)
  | fuel + 1, number, trace =>
    let filterNum : Option String := if truthyS number then number else none
    match session.list_issues series_id filterNum with
    | none => (none, trace)
    | some issues =>
      let options := issues.mergeSort (fun a b =>
        decide (a.number < b.number) ||
          (decide (a.number = b.number) &&
            decide (a.name.getD "" ≤ b.name.getD "")))
      let c := takeChoice options.length trace
      if c.1 ≠ 0 then
        ((options[c.1 - 1]?).map (fun i => i.id), c.2)
      else if truthyS number then search_issues session series_id fuel none c.2
      else (none, c.2)

/-- `Comicvine._get_issue_id` (`comicvine.py` lines 307-317). -/
def get_issue_id (session : Session) (series_id : Int) (m : Metadata)
    (mi : MetronInfo) (trace : List Ev) : Option Int × List Ev :=
  let stored : Option Int :=
    (m.issue.resources.find?
      (fun r => decide (r.source = Source.comicvine))).map (fun r => r.value)
  let fromMetron : Option Int :=
    match mi.id with
    | some sid => if sid.source = .comicVine then some sid.value else none
    | none => none
  let iid := orElseI stored fromMetron
  if truthyI iid then (iid, trace)
  else search_issues session series_id 2 (some m.issue.number) trace

/-- `Comicvine.fetch_issue` (`comicvine.py` lines 319-339); merging into
MetronInfo may consume a cover-date prompt answer from the trace. -/
def fetch_issue (session : Session) (today : Int) (st : Tri) (trace : List Ev)
    (series_id : Int) : Option CVIssue × Tri × List Ev :=
  let r := get_issue_id session series_id st.metadata st.metron_info trace
  match r.1 with
  | none => (none, st, r.2)
  | some iid =>
    if iid = 0 then (none, st, r.2)
    else
      match session.get_issue iid with
      | none => (none, st, r.2)
      | some issue =>
        let m := add_issue_to_metadata issue st.metadata
        let miTrace := add_issue_to_metron_info issue st.metron_info today r.2
        let ci := add_issue_to_comic_info issue st.comic_info
        (some issue, ⟨m, miTrace.1, ci⟩, miTrace.2)

/-- The result a service `fetch` leaves behind: the (possibly mutated)
metadata objects, the remaining console trace and the reported success. -/
structure FetchResult where
  state : Tri
  trace : List Ev
  success : Bool
deriving Repr

/-- `Comicvine.fetch` (`comicvine.py` lines 341-362): publisher, then
series, then issue; any stage failing aborts with failure, keeping whatever
mutations earlier stages already made. -/
def comicvineFetch (session : Session) (today : Int) (st : Tri)
    (trace : List Ev) : FetchResult :=
  let p := fetch_publisher session st trace
  match p.1 with
  | none => ⟨p.2.1, p.2.2, false⟩
  | some pub =>
    let s := fetch_series session p.2.1 p.2.2 pub.id
    match s.1 with
    | none => ⟨s.2.1, s.2.2, false⟩
    | some ser =>
      let i := fetch_issue session today s.2.1 s.2.2 ser.id
      match i.1 with
      | none => ⟨i.2.1, i.2.2, false⟩
      | some _ => ⟨i.2.1, i.2.2, true⟩

/-! ## Service driver (`__main__.py`, `fetch_from_services`) -/

/-- A configured external service as the driver consumes it: mutate the
metadata objects and report success. -/
def FetchFn : Type :=
  Tri → List Ev → FetchResult

/-- The `any(service and service.fetch(*metainfo) for service in ...)`
expression of `fetch_from_services` (`__main__.py` lines 123-125): the
generator visits the services in order, skips unconfigured (`None`) slots,
calls `fetch` on the rest, and short-circuits at the first success. -/
def any_fetch : List (Option FetchFn) → Tri → List Ev → FetchResult
  | [], st, trace => ⟨st, trace, false⟩
  | none :: rest, st, trace => any_fetch rest st trace
  | some f :: rest, st, trace =>
    let r := f st trace
    if r.success then r else any_fetch rest r.state r.trace

/-- Modelled from the spec: the credential blocks of `perdoo.settings`.  A
service is configured only when its block is present and every credential
string is non-empty (Python truthiness of the strings). -/
structure MarvelSettings where
  public_key : String
  private_key : String
deriving DecidableEq, Repr

/-- Modelled from the spec: the Metron credential block. -/
structure MetronSettings where
  username : String
  password : String
deriving DecidableEq, Repr

/-- Modelled from the spec: the Comicvine credential block. -/
structure ComicvineSettings where
  api_key : String
deriving DecidableEq, Repr

/-- Modelled from the spec: the League of Comic Geeks credential block. -/
structure LeagueSettings where
  client_id : String
  client_secret : String
deriving DecidableEq, Repr

/-- Modelled from the spec: the service portion of `perdoo.settings.Settings`. -/
structure Settings where
  marvel : Option MarvelSettings
  metron : Option MetronSettings
  comicvine : Option ComicvineSettings
  league_of_comic_geeks : Option LeagueSettings
deriving DecidableEq, Repr

/-- The warning `fetch_from_services` logs, if any. -/
inductive Warn
  | noWarning
  | noServices
  | fetchFailed
deriving DecidableEq, Repr

/-- The outcome of one `fetch_from_services` call. -/
structure ServiceRun where
  state : Tri
  trace : List Ev
  success : Bool
  warning : Warn
deriving Repr

/-- The body of `fetch_from_services` once the four service slots are
built: `if not marvel and not metron and not comicvine and not league`
warn-and-stop, else the short-circuiting `any` followed by the no-success
warning (`__main__.py` lines 119-127). -/
def run_services (svcs : List (Option FetchFn)) (st : Tri)
    (trace : List Ev) : ServiceRun :=
  if svcs.all (fun s => s.isNone) then
    ⟨st, trace, false, .noServices⟩
  else
    let r := any_fetch svcs st trace
    ⟨r.state, r.trace, r.success, if r.success then .noWarning else .fetchFailed⟩

/-- `fetch_from_services(settings, metainfo)` (`__main__.py` lines 100-127):
build the four service slots from the credential checks (in the fixed order
marvel, metron, comicvine, league), then `run_services`.  The concrete
client constructions are abstracted as the four fetch capabilities. -/
def fetch_from_services (settings : Settings)
    (marvelF metronF comicvineF leagueF : FetchFn) (st : Tri)
    (trace : List Ev) : ServiceRun :=
  let marvel : Option FetchFn :=
    match settings.marvel with
    | some s => if s.public_key ≠ "" ∧ s.private_key ≠ "" then some marvelF else none
    | none => none
  let metron : Option FetchFn :=
    match settings.metron with
    | some s => if s.username ≠ "" ∧ s.password ≠ "" then some metronF else none
    | none => none
  let comicvine : Option FetchFn :=
    match settings.comicvine with
    | some s => if s.api_key ≠ "" then some comicvineF else none
    | none => none
  let league : Option FetchFn :=
    match settings.league_of_comic_geeks with
    | some s => if s.client_id ≠ "" ∧ s.client_secret ≠ "" then some leagueF else none
    | none => none
  run_services [marvel, metron, comicvine, league] st trace

/-! ## Concrete instances used by counterexamples and witnesses -/

/-- A canonical-schema publisher already carrying a Comicvine identifier. -/
def cexPublisherMD : PublisherMD := ⟨"dc comics", [⟨.comicvine, 5⟩]⟩

/-- A series under `cexPublisherMD` with no stored identifiers. -/
def cexSeriesMD : SeriesMD := ⟨cexPublisherMD, "Amazing", 1, 0, []⟩

/-- An issue of `cexSeriesMD` with no stored identifiers. -/
def cexIssueMD : IssueMD :=
  ⟨cexSeriesMD, "1", .comic, none, none, none, none, [], [], [], [], [], []⟩

/-- A canonical metadata record stamped today by the default tool. -/
def cexMetadata : Metadata := ⟨cexIssueMD, ⟨defaultTool, 0⟩⟩

/-- An empty MetronInfo record. -/
def cexMetron : MetronInfo :=
  ⟨none, ⟨none, none⟩, ⟨none, none⟩, [], [], none, [], [], none, none, none, [],
   none, none⟩

/-- An empty ComicInfo record. -/
def cexComic : ComicInfo :=
  ⟨none, none, [], [], none, [], none, [], none, [], none, none⟩

/-- The three metadata objects before enrichment. -/
def cexTri : Tri := ⟨cexMetadata, cexMetron, cexComic⟩

/-- A session that resolves publisher 5 to "DC" and raises `ServiceError` on
everything else, so the series stage of `Comicvine.fetch` fails after the
publisher stage has already mutated the metadata. -/
def cexSession : Session :=
  ⟨fun i => if i = 5 then some ⟨5, "DC"⟩ else none,
   fun _ => none, fun _ => none, fun _ => none, fun _ => none, fun _ _ => none⟩

/-- A service whose fetch mutates nothing and reports failure. -/
def dummyFetch : FetchFn := fun st tr => ⟨st, tr, false⟩

/-- Settings in which only Comicvine is configured. -/
def cexSettings : Settings := ⟨none, none, some ⟨"key"⟩, none⟩

/-- Converters that ignore their argument, enough to witness the
reconciliation precedence at concrete inputs. -/
def cexConverters : Converters :=
  ⟨fun _ => cexMetadata, fun _ => cexMetadata, fun _ => cexMetron, fun _ => cexComic⟩

/-- A concrete Comicvine volume belonging to publisher 5. -/
def cexVolume : CVVolume := ⟨303, "Amazing", 1963, ⟨5, "DC"⟩⟩

/-- A concrete Comicvine issue without a cover date. -/
def cexCVIssue : CVIssue :=
  ⟨909, some "Night", "1", none, none, none, "url", [], [], [], [], []⟩

/-! ## Helper lemmas about the Python-set model -/

/-- Members of the original list survive `pysetInsert`. -/
theorem pysetInsert_mem_of_mem {α : Type} [DecidableEq α] (l : List α) (x y : α)
    (h : y ∈ l) : y ∈ pysetInsert l x := by
  unfold pysetInsert
  by_cases hx : x ∈ l.dedup <;> simp [hx, List.mem_dedup.mpr h]

/-- The inserted element is a member of `pysetInsert`. -/
theorem pysetInsert_mem_self {α : Type} [DecidableEq α] (l : List α) (x : α) :
    x ∈ pysetInsert l x := by
  unfold pysetInsert
  by_cases hx : x ∈ l.dedup <;> simp [hx]

/-- `pysetInsert` yields a duplicate-free list. -/
theorem pysetInsert_nodup {α : Type} [DecidableEq α] (l : List α) (x : α) :
    (pysetInsert l x).Nodup := by
  unfold pysetInsert
  by_cases hx : x ∈ l.dedup <;> simp [hx, List.nodup_append, List.nodup_dedup]

/-! ## Claim theorems -/

/-- C1: the spec says a false `extract_files` aborts only that one archive
and the run continues with the next; the source instead executes `return`
inside the loop of `start`, so an extract failure on the first archive
leaves the second archive unreached. -/
theorem start_return_on_extract_failure :
    start_loop true 0
        [⟨"a", ⟨defaultTool, 0⟩, false, true⟩, ⟨"b", ⟨defaultTool, 0⟩, true, true⟩]
      = [("a", .abortedRun), ("b", .notReached)] := by
  decide

/-- C2: the spec says `get_archive` raises an unsupported-format error
exactly when the content matches none of the four signatures; the source
never applies `is_7zfile` to the path, so a file matching no signature is
returned as the 7z variant whenever `py7zr` imported, and the error is
raised (regardless of the content) only when the import failed. -/
theorem get_archive_accepts_unknown_content :
    get_archive false false false false true = .ok .CB7
    ∧ ∀ b, get_archive false false false b false = .error "unsupported archive" := by
  refine ⟨rfl, ?_⟩
  intro b
  rfl

/-- C3: the spec says an already-canonical image name (hyphen form) is left
alone; the source guard compares against the underscore form, which a
canonical name never equals, so the canonical directory still produces a
rename operation (to the very same name). -/
theorem rename_images_renames_canonical :
    rename_images "Foo" ["Foo-0.jpg"] = [("Foo-0.jpg", "Foo-0.jpg")] := by
  decide

/-- C4: whatever subset of the three metadata files parsed, the
reconciliation step returns all three schemas, the canonical one taken
verbatim when present, else derived from MetronInfo, else from ComicInfo,
else the synthesized default; a missing MetronInfo and a missing ComicInfo
are then each derived from the canonical result. -/
theorem read_archive_precedence (c : Converters) (cm : Metadata)
    (mo : Option Metadata) (mio : Option MetronInfo) (cio : Option ComicInfo) :
    (∀ m, mo = some m →
      read_archive_reconcile c cm mo mio cio =
        (m, mio.getD (c.metadata_to_metron m), cio.getD (c.metadata_to_comic m)))
    ∧ (∀ mi, mo = none → mio = some mi →
      read_archive_reconcile c cm mo mio cio =
        (c.metron_to_metadata mi, mi,
         cio.getD (c.metadata_to_comic (c.metron_to_metadata mi))))
    ∧ (∀ ci, mo = none → mio = none → cio = some ci →
      read_archive_reconcile c cm mo mio cio =
        (c.comic_to_metadata ci,
         c.metadata_to_metron (c.comic_to_metadata ci), ci))
    ∧ (mo = none → mio = none → cio = none →
      read_archive_reconcile c cm mo mio cio =
        (cm, c.metadata_to_metron cm, c.metadata_to_comic cm)) := by
  refine ⟨?_, ?_, ?_, ?_⟩
  · rintro m rfl
    cases mio <;> cases cio <;> rfl
  · rintro mi rfl rfl
    cases cio <;> rfl
  · rintro ci rfl rfl rfl
    rfl
  · rintro rfl rfl rfl
    rfl

/-- Witness for C4: with every metadata file absent, reconciliation returns
the synthesized default and the two schemas derived from it. -/
theorem read_archive_precedence_witness :
    read_archive_reconcile cexConverters cexMetadata none none none =
      (cexMetadata, cexConverters.metadata_to_metron cexMetadata,
       cexConverters.metadata_to_comic cexMetadata) :=
  (read_archive_precedence cexConverters cexMetadata none none none).2.2.2 rfl rfl rfl

/-- C5 counterexample: with only Comicvine configured, a session that
resolves the publisher but fails at the series stage makes every configured
fetch report failure and the driver log the warning, yet the canonical
metadata is not equal to its pre-enrichment state (the publisher merge
already happened). -/
theorem fetch_failure_mutates_metadata :
    (fetch_from_services cexSettings dummyFetch dummyFetch
        (comicvineFetch cexSession 0) dummyFetch cexTri []).success = false
    ∧ (fetch_from_services cexSettings dummyFetch dummyFetch
        (comicvineFetch cexSession 0) dummyFetch cexTri []).warning = .fetchFailed
    ∧ (fetch_from_services cexSettings dummyFetch dummyFetch
        (comicvineFetch cexSession 0) dummyFetch cexTri []).state.metadata
        ≠ cexTri.metadata := by
  refine ⟨rfl, rfl, ?_⟩
  decide

/-- C5 amended: the driver skips unconfigured slots, stops at the first
fetch that reports success, threads the (possibly mutated) metadata into the
next service on failure, and logs a warning whenever no fetch succeeded --
but it does not restore the metadata objects. -/
theorem fetch_service_order_spec (rest : List (Option FetchFn)) (f : FetchFn)
    (st : Tri) (tr : List Ev) :
    (any_fetch (none :: rest) st tr = any_fetch rest st tr)
    ∧ ((f st tr).success = true → any_fetch (some f :: rest) st tr = f st tr)
    ∧ ((f st tr).success = false →
        any_fetch (some f :: rest) st tr =
          any_fetch rest (f st tr).state (f st tr).trace)
    ∧ (∀ settings mF tF cF lF,
        (fetch_from_services settings mF tF cF lF st tr).success = false →
          (fetch_from_services settings mF tF cF lF st tr).warning ≠ .noWarning) := by
  refine ⟨rfl, ?_, ?_, ?_⟩
  · intro h
    simp [any_fetch, h]
  · intro h
    simp [any_fetch, h]
  · intro settings mF tF cF lF
    show (run_services _ st tr).success = false → (run_services _ st tr).warning ≠ .noWarning
    unfold run_services
    split
    · intro _
      simp
    · intro h
      simp only at h ⊢
      rw [h]
      simp

/-- Witness for C5 amended: a failing single service leads to the threaded
recursive call, and the all-fail run leaves a warning. -/
theorem fetch_service_order_witness :
    (any_fetch [some dummyFetch] cexTri [] =
      any_fetch [] (dummyFetch cexTri []).state (dummyFetch cexTri []).trace)
    ∧ (fetch_from_services cexSettings dummyFetch dummyFetch dummyFetch
        dummyFetch cexTri []).warning ≠ .noWarning :=
  ⟨(fetch_service_order_spec [] dummyFetch cexTri []).2.2.1 rfl,
   (fetch_service_order_spec [] dummyFetch cexTri []).2.2.2 cexSettings
     dummyFetch dummyFetch dummyFetch dummyFetch rfl⟩

/-- C6: with force unset an archive is skipped exactly when the stamp tool
equals the default tool signature and the stamp date is less than 28 days
from today (measured as an absolute difference); a stamp dated today with
the default signature is skipped; with force set nothing is skipped. -/
theorem freshness_gate_spec (tool : Tool) (today d : Int) :
    (shouldSkip false ⟨tool, d⟩ today = true ↔
      (tool = defaultTool ∧ (today - d).natAbs < 28))
    ∧ shouldSkip false ⟨defaultTool, today⟩ today = true
    ∧ (∀ m : Meta, ∀ t : Int, shouldSkip true m t = false) := by
  refine ⟨?_, ?_, ?_⟩
  · simp [shouldSkip]
  · simp [shouldSkip]
  · intro m t
    rfl

/-- Witness for C6: a fresh default-tool stamp is skipped; force overrides. -/
theorem freshness_gate_witness :
    shouldSkip false ⟨defaultTool, 100⟩ 100 = true
    ∧ shouldSkip true ⟨defaultTool, 100⟩ 100 = false :=
  ⟨(freshness_gate_spec defaultTool 100 100).2.1,
   (freshness_gate_spec defaultTool 100 100).2.2 ⟨defaultTool, 100⟩ 100⟩

/-- C7: the issue filename uses a 3-digit-padded number for the default
(comic) kind, places a 2-digit-padded number before the kind suffix for
graphic novels, hardcovers and trade paperbacks, omits the number part
entirely when the issue number is absent, and in particular a graphic novel
numbered "5" yields the series filename followed by `_#05_GN`. -/
theorem issue_filename_spec (san : String → String) (series num : String) :
    (num ≠ "" →
      issue_filename san series num .comic = san series ++ ("_#" ++ zfill 3 num))
    ∧ (∀ f, (f = Format.graphicNovel ∨ f = Format.hardcover ∨ f = Format.tradePaperback) →
      issue_filename san series num f =
        san series ++ (if num ≠ "" then "_#" ++ zfill 2 num else "") ++ format_str f)
    ∧ (∀ f, issue_filename san series "" f = san series ++ format_str f)
    ∧ issue_filename san series "5" .graphicNovel = san series ++ "_#05_GN" := by
  refine ⟨?_, ?_, ?_, ?_⟩
  · intro h
    simp [issue_filename, number_str, h]
  · rintro f (rfl | rfl | rfl) <;> simp [issue_filename, number_str, format_str]
  · intro f
    cases f <;> simp [issue_filename, number_str, format_str]
  · show (san series ++ ("_#" ++ zfill 2 "5")) ++ "_GN" = san series ++ "_#05_GN"
    rw [String.append_assoc]
    rfl

/-- Witness for C7: the padded formats at concrete inputs. -/
theorem issue_filename_witness :
    issue_filename id "Amazing" "7" .comic = "Amazing" ++ ("_#" ++ zfill 3 "7")
    ∧ issue_filename id "Amazing" "5" .graphicNovel =
        "Amazing" ++ (if ("5" : String) ≠ "" then "_#" ++ zfill 2 "5" else "") ++ format_str .graphicNovel :=
  ⟨(issue_filename_spec id "Amazing" "7").1 (by decide),
   (issue_filename_spec id "Amazing" "5").2.1 Format.graphicNovel (Or.inl rfl)⟩

/-- C8: merging a resolved publisher, series or issue identifier into the
canonical metadata keeps every pre-existing identifier, adds the new
(Comicvine, id) pair, and leaves a duplicate-free resources list. -/
theorem resource_merge_spec (m : Metadata) (pub : CVPublisher) (vol : CVVolume)
    (iss : CVIssue) :
    ((∀ r ∈ m.issue.series.publisher.resources,
        r ∈ (add_publisher_to_metadata pub m).issue.series.publisher.resources)
      ∧ (⟨.comicvine, pub.id⟩ : Resource) ∈
          (add_publisher_to_metadata pub m).issue.series.publisher.resources
      ∧ (add_publisher_to_metadata pub m).issue.series.publisher.resources.Nodup)
    ∧ ((∀ r ∈ m.issue.series.resources,
        r ∈ (add_series_to_metadata vol m).issue.series.resources)
      ∧ (⟨.comicvine, vol.id⟩ : Resource) ∈
          (add_series_to_metadata vol m).issue.series.resources
      ∧ (add_series_to_metadata vol m).issue.series.resources.Nodup)
    ∧ ((∀ r ∈ m.issue.resources, r ∈ (add_issue_to_metadata iss m).issue.resources)
      ∧ (⟨.comicvine, iss.id⟩ : Resource) ∈ (add_issue_to_metadata iss m).issue.resources
      ∧ (add_issue_to_metadata iss m).issue.resources.Nodup) := by
  refine ⟨⟨?_, ?_, ?_⟩, ⟨?_, ?_, ?_⟩, ⟨?_, ?_, ?_⟩⟩
  · intro r hr
    exact pysetInsert_mem_of_mem _ _ _ hr
  · exact pysetInsert_mem_self _ _
  · exact pysetInsert_nodup _ _
  · intro r hr
    exact pysetInsert_mem_of_mem _ _ _ hr
  · exact pysetInsert_mem_self _ _
  · exact pysetInsert_nodup _ _
  · intro r hr
    exact pysetInsert_mem_of_mem _ _ _ hr
  · exact pysetInsert_mem_self _ _
  · exact pysetInsert_nodup _ _

/-- Witness for C8: the pre-existing Comicvine publisher identifier of
`cexMetadata` survives the publisher merge. -/
theorem resource_merge_witness :
    (⟨.comicvine, 5⟩ : Resource) ∈
      (add_publisher_to_metadata ⟨5, "DC"⟩ cexMetadata).issue.series.publisher.resources :=
  (resource_merge_spec cexMetadata ⟨5, "DC"⟩ cexVolume cexCVIssue).1.1
    ⟨.comicvine, 5⟩ (by decide)

/-- C9: because the gate takes the absolute value of the date difference, a
default-tool stamp dated in the future is also skipped whenever the future
date is less than 28 days away. -/
theorem freshness_gate_future_spec (today d : Int) (h1 : today < d)
    (h2 : d - today < 28) :
    shouldSkip false ⟨defaultTool, d⟩ today = true := by
  simp only [shouldSkip, Bool.not_false, Bool.true_and, decide_eq_true_eq,
    Bool.and_eq_true]
  exact ⟨by simp, by omega⟩

/-- Witness for C9: a stamp dated five days in the future is skipped. -/
theorem freshness_gate_future_witness :
    shouldSkip false ⟨defaultTool, 5⟩ 0 = true :=
  freshness_gate_future_spec 0 5 (by decide) (by decide)

/-- C10: merging an issue into MetronInfo stores `cover_date` as a
one-element tuple holding the issue cover date (or the prompted date, whose
offered default is today, when absent), never a bare date, while
`store_date` is assigned the bare value. -/
theorem metron_cover_date_tuple_spec (iss : CVIssue) (mi : MetronInfo)
    (today : Int) (tr : List Ev) :
    (add_issue_to_metron_info iss mi today tr).1.cover_date =
      some (.tup (match iss.cover_date with
        | some d => d
        | none => (takeDate today tr).1))
    ∧ (add_issue_to_metron_info iss mi today tr).1.store_date = iss.store_date
    ∧ ∀ d, (add_issue_to_metron_info iss mi today tr).1.cover_date ≠ some (.bare d) := by
  refine ⟨?_, ?_, ?_⟩
  · cases hc : iss.cover_date <;>
      simp only [add_issue_to_metron_info, hc] <;> split <;> simp
  · cases hc : iss.cover_date <;>
      simp only [add_issue_to_metron_info, hc]
  · intro d
    cases hc : iss.cover_date <;>
      simp only [add_issue_to_metron_info, hc] <;> split <;> simp

/-- Witness for C10: with no Comicvine cover date and an empty trace, the
stored value is the one-element tuple of the default date, and it is not the
bare value. -/
theorem metron_cover_date_witness :
    (add_issue_to_metron_info cexCVIssue cexMetron 5 []).1.cover_date = some (.tup 5)
    ∧ (add_issue_to_metron_info cexCVIssue cexMetron 5 []).1.cover_date ≠ some (.bare 5) :=
  ⟨(metron_cover_date_tuple_spec cexCVIssue cexMetron 5 []).1,
   (metron_cover_date_tuple_spec cexCVIssue cexMetron 5 []).2.2 5⟩

end Perdoo
